import Mathlib

/-!
Verification development for the proximity-based Walk Mode engine of the
ar-city-explorer repository.

The engine lives in `src/app/app.ts` (`WalkModeService`), with the per-day
session tracker in `src/app/services/session.service.ts` (`SessionService`).
The code is embedded shallowly:

* Angular signals become plain fields of an explicit state record; each
  method becomes a state-passing function.
* The collaborators (`InterestService.getInterests`, `AiMemoryService.hasMemory`,
  `navigator.geolocation` availability) become an `Env` record of parameters.
* `calculateDistance` is the Haversine formula over IEEE doubles
  (transcendental); the engine only consumes its output, so the embedding
  takes the distance function as an `Env` parameter with rational values,
  and every property below is proved for all distance functions or at
  explicitly chosen distances.
* JavaScript `Set<string>` fields are embedded as `List String` used only
  through membership, which matches every use in the source.
* JavaScript truthiness matters in two places and is embedded literally:
  `checkProximity`'s guard `!nearest.distance` is true when the distance is
  exactly 0, and `_pendingLandmark()` used as a guard is true exactly when
  the pending landmark is non-null.
-/

/- Batteries marks the rational-number field operations `@[irreducible]`;
the concrete evaluations below need them to reduce definitionally. -/
unseal Rat.sub Rat.add Rat.mul Rat.inv

namespace ARCity

/-- `GeoLocation` from app.ts (latitude/longitude/accuracy/timestamp). -/
structure GeoLocation where
  latitude : ℚ
  longitude : ℚ
  accuracy : ℚ
  timestamp : ℤ
deriving DecidableEq

/-- `WalkLandmark` from app.ts: the candidate reference data handed to the engine. -/
structure WalkLandmark where
  id : String
  name : String
  latitude : ℚ
  longitude : ℚ
  tags : List String
deriving DecidableEq

/-- The object built by `getNextLandmark`'s scoring map:
`{ ...landmark, distance, matchedInterest, interestScore, previouslyVisited }`. -/
structure ScoredLandmark where
  id : String
  name : String
  latitude : ℚ
  longitude : ℚ
  tags : List String
  distance : ℚ
  interestScore : ℚ
  matchedInterest : Option String
  previouslyVisited : Bool
deriving DecidableEq

/-- `WalkingTour` (the fields the walk engine reads: `landmarkIds`,
`previewLandmarkCount`, and the id used only opaquely). -/
structure WalkingTour where
  id : String
  landmarkIds : List String
  previewLandmarkCount : ℕ
deriving DecidableEq

/-- External collaborators of `WalkModeService`, as parameters:
`interests` is `interestService.getInterests()`, `hasMemory` is
`memoryService.hasMemory`, `dist` stands for `calculateDistance` applied to
the current location and a landmark's coordinates, `locationCapability` is
`isPlatformBrowser(..) && navigator.geolocation`, and `watchHandle` is the
number returned by `geolocation.watchPosition`. -/
structure Env where
  interests : List String
  hasMemory : String → Bool
  dist : GeoLocation → WalkLandmark → ℚ
  locationCapability : Bool
  watchHandle : ℕ

/-- `PROXIMITY_THRESHOLD = 30` (meters). -/
def PROXIMITY_THRESHOLD : ℚ := 30

/-- `POOR_ACCURACY_THRESHOLD = 50` (meters). -/
def POOR_ACCURACY_THRESHOLD : ℚ := 50

/-- `INTEREST_PRIORITY_RANGE = 200` (meters). -/
def INTEREST_PRIORITY_RANGE : ℚ := 200

/-- `getInterestMatchScore`: walks the ranked interests in order, returns on
the first interest contained in the tags; 2 if that interest is the primary
(first) one, 1 otherwise, 0 on no tags or no match. -/
def getInterestMatchScore (interests : List String) (tags : List String) :
    ℚ × Option String :=
  if tags.isEmpty then (0, none)
  else
    match interests.find? (fun i => tags.contains i) with
    | some i => (if interests.head? = some i then 2 else 1, some i)
    | none => (0, none)

/-- The scoring map body of `getNextLandmark`: attach distance, interest
score, matched interest and cross-session memory flag to a candidate. -/
def scoreLandmark (env : Env) (loc : GeoLocation) (l : WalkLandmark) :
    ScoredLandmark :=
  let m := getInterestMatchScore env.interests l.tags
  { id := l.id
    name := l.name
    latitude := l.latitude
    longitude := l.longitude
    tags := l.tags
    distance := env.dist loc l
    interestScore := m.1
    matchedInterest := m.2
    previouslyVisited := env.hasMemory l.id }

/-- The distance/interest tier of the comparator in `getNextLandmark`:
when both distances are within `INTEREST_PRIORITY_RANGE` and the interest
scores differ, the score difference decides; otherwise ascending distance. -/
def tierCompare (a b : ScoredLandmark) : ℚ :=
  if a.distance ≤ INTEREST_PRIORITY_RANGE ∧ b.distance ≤ INTEREST_PRIORITY_RANGE ∧
       b.interestScore - a.interestScore ≠ 0 then
    b.interestScore - a.interestScore
  else a.distance - b.distance

/-- The comparator passed to `withScores.sort` in `getNextLandmark`:
previously-visited candidates last, then the distance/interest tier. -/
def sortCompare (a b : ScoredLandmark) : ℚ :=
  if a.previouslyVisited && !b.previouslyVisited then 1
  else if !a.previouslyVisited && b.previouslyVisited then -1
  else tierCompare a b

/-- `a` sorts no later than `b` under the engine's comparator. -/
def sortLe (a b : ScoredLandmark) : Prop := sortCompare a b ≤ 0

instance : DecidableRel sortLe :=
  fun a b => (inferInstance : Decidable (sortCompare a b ≤ 0))

theorem sortCompare_eq_tier {a b : ScoredLandmark}
    (h : a.previouslyVisited = b.previouslyVisited) :
    sortCompare a b = tierCompare a b := by
  unfold sortCompare
  cases hb : b.previouslyVisited <;> rw [h, hb] <;> simp

theorem sortCompare_fresh_seen {a b : ScoredLandmark}
    (ha : a.previouslyVisited = false) (hb : b.previouslyVisited = true) :
    sortCompare a b = -1 := by
  unfold sortCompare
  rw [ha, hb]
  simp

theorem sortCompare_seen_fresh {a b : ScoredLandmark}
    (ha : a.previouslyVisited = true) (hb : b.previouslyVisited = false) :
    sortCompare a b = 1 := by
  unfold sortCompare
  rw [ha, hb]
  simp

theorem sortCompare_self (a : ScoredLandmark) : sortCompare a a = 0 := by
  rw [sortCompare_eq_tier rfl]
  unfold tierCompare
  simp

theorem tierCompare_swap (a b : ScoredLandmark) :
    tierCompare b a = -tierCompare a b := by
  unfold tierCompare
  by_cases h1 : b.distance ≤ INTEREST_PRIORITY_RANGE ∧
      a.distance ≤ INTEREST_PRIORITY_RANGE ∧
      a.interestScore - b.interestScore ≠ 0
  · rw [if_pos h1, if_pos ⟨h1.2.1, h1.1, fun hc => h1.2.2 (by linarith)⟩]
    ring
  · rw [if_neg h1, if_neg (fun h2 => h1 ⟨h2.2.1, h2.1, fun hc => h2.2.2 (by linarith)⟩)]
    ring

theorem sortCompare_swap (a b : ScoredLandmark) :
    sortCompare b a = -sortCompare a b := by
  cases ha : a.previouslyVisited <;> cases hb : b.previouslyVisited
  · rw [sortCompare_eq_tier (hb.trans ha.symm), sortCompare_eq_tier (ha.trans hb.symm),
      tierCompare_swap]
  · rw [sortCompare_seen_fresh hb ha, sortCompare_fresh_seen ha hb]
    norm_num
  · rw [sortCompare_fresh_seen hb ha, sortCompare_seen_fresh ha hb]
  · rw [sortCompare_eq_tier (hb.trans ha.symm), sortCompare_eq_tier (ha.trans hb.symm),
      tierCompare_swap]

instance : IsTotal ScoredLandmark sortLe where
  total a b := by
    unfold sortLe
    rcases le_or_lt (sortCompare a b) 0 with h | h
    · exact Or.inl h
    · refine Or.inr ?_
      rw [sortCompare_swap]
      linarith

theorem tierCompare_trans {a b c : ScoredLandmark}
    (hab : tierCompare a b ≤ 0) (hbc : tierCompare b c ≤ 0) :
    tierCompare a c ≤ 0 := by
  unfold tierCompare at *
  by_cases h1 : a.distance ≤ INTEREST_PRIORITY_RANGE ∧
      b.distance ≤ INTEREST_PRIORITY_RANGE ∧
      b.interestScore - a.interestScore ≠ 0 <;>
    by_cases h2 : b.distance ≤ INTEREST_PRIORITY_RANGE ∧
      c.distance ≤ INTEREST_PRIORITY_RANGE ∧
      c.interestScore - b.interestScore ≠ 0 <;>
    by_cases h3 : a.distance ≤ INTEREST_PRIORITY_RANGE ∧
      c.distance ≤ INTEREST_PRIORITY_RANGE ∧
      c.interestScore - a.interestScore ≠ 0
  · rw [if_pos h1] at hab
    rw [if_pos h2] at hbc
    rw [if_pos h3]
    linarith
  · -- scores decide a-b and b-c, but a-c falls back to distance:
    -- then the score of c equals that of a, contradicting strictness
    rw [if_pos h1] at hab
    rw [if_pos h2] at hbc
    rw [if_neg h3]
    have hsca : c.interestScore - a.interestScore = 0 := by
      by_contra hne
      exact h3 ⟨h1.1, h2.2.1, hne⟩
    have := lt_of_le_of_ne hab h1.2.2
    have := lt_of_le_of_ne hbc h2.2.2
    linarith
  · rw [if_pos h1] at hab
    rw [if_neg h2] at hbc
    rw [if_pos h3]
    have hscb : c.interestScore - b.interestScore = 0 := by
      by_contra hne
      exact h2 ⟨h1.2.1, h3.2.1, hne⟩
    linarith
  · rw [if_pos h1] at hab
    rw [if_neg h2] at hbc
    rw [if_neg h3]
    by_cases hcR : c.distance ≤ INTEREST_PRIORITY_RANGE
    · have h4 : c.interestScore - b.interestScore = 0 := by
        by_contra hne
        exact h2 ⟨h1.2.1, hcR, hne⟩
      have h5 : c.interestScore - a.interestScore = 0 := by
        by_contra hne
        exact h3 ⟨h1.1, hcR, hne⟩
      exact absurd (by linarith : b.interestScore - a.interestScore = 0) h1.2.2
    · linarith [h1.1, not_le.mp hcR]
  · rw [if_neg h1] at hab
    rw [if_pos h2] at hbc
    rw [if_pos h3]
    have hsba : b.interestScore - a.interestScore = 0 := by
      by_contra hne
      exact h1 ⟨h3.1, h2.1, hne⟩
    linarith
  · rw [if_neg h1] at hab
    rw [if_pos h2] at hbc
    rw [if_neg h3]
    have haR : a.distance ≤ INTEREST_PRIORITY_RANGE := by linarith [h2.1]
    have h4 : b.interestScore - a.interestScore = 0 := by
      by_contra hne
      exact h1 ⟨haR, h2.1, hne⟩
    have h5 : c.interestScore - a.interestScore = 0 := by
      by_contra hne
      exact h3 ⟨haR, h2.2.1, hne⟩
    exact absurd (by linarith : c.interestScore - b.interestScore = 0) h2.2.2
  · rw [if_neg h1] at hab
    rw [if_neg h2] at hbc
    rw [if_pos h3]
    have hbR : b.distance ≤ INTEREST_PRIORITY_RANGE := by linarith [h3.2.1]
    have h4 : b.interestScore - a.interestScore = 0 := by
      by_contra hne
      exact h1 ⟨h3.1, hbR, hne⟩
    have h5 : c.interestScore - b.interestScore = 0 := by
      by_contra hne
      exact h2 ⟨hbR, h3.2.1, hne⟩
    linarith
  · rw [if_neg h1] at hab
    rw [if_neg h2] at hbc
    rw [if_neg h3]
    linarith

instance : IsTrans ScoredLandmark sortLe where
  trans a b c hab hbc := by
    unfold sortLe at *
    cases ha : a.previouslyVisited <;> cases hb : b.previouslyVisited <;>
      cases hc : c.previouslyVisited
    · rw [sortCompare_eq_tier (ha.trans hb.symm)] at hab
      rw [sortCompare_eq_tier (hb.trans hc.symm)] at hbc
      rw [sortCompare_eq_tier (ha.trans hc.symm)]
      exact tierCompare_trans hab hbc
    · rw [sortCompare_fresh_seen ha hc]
      norm_num
    · rw [sortCompare_seen_fresh hb hc] at hbc
      norm_num at hbc
    · rw [sortCompare_fresh_seen ha hc]
      norm_num
    · rw [sortCompare_seen_fresh ha hb] at hab
      norm_num at hab
    · rw [sortCompare_seen_fresh ha hb] at hab
      norm_num at hab
    · rw [sortCompare_seen_fresh hb hc] at hbc
      norm_num at hbc
    · rw [sortCompare_eq_tier (ha.trans hb.symm)] at hab
      rw [sortCompare_eq_tier (hb.trans hc.symm)] at hbc
      rw [sortCompare_eq_tier (ha.trans hc.symm)]
      exact tierCompare_trans hab hbc

/-! ### The walk engine state and its operations (`WalkModeService`) -/

/-- The signal fields of `WalkModeService`, with their initial values given
by `initialWalkState`. -/
structure WalkState where
  isActive : Bool
  currentLocation : Option GeoLocation
  pendingLandmark : Option ScoredLandmark
  visitedIds : List String
  skippedIds : List String
  isPaused : Bool
  gpsAccuracyPoor : Bool
  currentCityId : String
  activeTour : Option WalkingTour
  tourIndex : ℕ
  tourPreviewLimit : ℕ
  tourPreviewLimitReached : Bool
  watchId : Option ℕ
deriving DecidableEq

/-- The initial values of the `WalkModeService` signals. -/
def initialWalkState : WalkState :=
  { isActive := false
    currentLocation := none
    pendingLandmark := none
    visitedIds := []
    skippedIds := []
    isPaused := false
    gpsAccuracyPoor := false
    currentCityId := "dallas"
    activeTour := none
    tourIndex := 0
    tourPreviewLimit := 0
    tourPreviewLimitReached := false
    watchId := none }

/-- `startWalk`: fails (returns false, no mutation) without the geolocation
capability; otherwise activates, unpauses, clears the per-walk sets and the
pending landmark, and installs the watch handle. -/
def startWalk (env : Env) (st : WalkState) : Bool × WalkState :=
  if !env.locationCapability then (false, st)
  else
    (true,
      { st with
          isActive := true
          isPaused := false
          visitedIds := []
          skippedIds := []
          pendingLandmark := none
          watchId := some env.watchHandle })

/-- `stopWalk`: deactivates, clears the pending landmark, releases the watch. -/
def stopWalk (st : WalkState) : WalkState :=
  { st with isActive := false, pendingLandmark := none, watchId := none }

/-- `pauseWalk` (app backgrounded): sets the single paused flag. -/
def pauseWalk (st : WalkState) : WalkState :=
  { st with isPaused := true }

/-- `resumeWalk`: clears the paused flag. -/
def resumeWalk (st : WalkState) : WalkState :=
  { st with isPaused := false }

/-- `handlePositionUpdate`: stores the location; accuracy over the threshold
force-pauses, otherwise the poor-GPS flag clears and any pause is lifted
(the source's `if (isPaused) setPaused(false)` leaves `isPaused = false`
either way). -/
def handlePositionUpdate (st : WalkState) (loc : GeoLocation) : WalkState :=
  let st1 := { st with currentLocation := some loc }
  if loc.accuracy > POOR_ACCURACY_THRESHOLD then
    { st1 with gpsAccuracyPoor := true, isPaused := true }
  else
    { st1 with gpsAccuracyPoor := false, isPaused := false }

/-- `handlePositionError`: marks the fix poor and force-pauses. -/
def handlePositionError (st : WalkState) : WalkState :=
  { st with gpsAccuracyPoor := true, isPaused := true }

/-- The filter step of `getNextLandmark`: candidates not in this walk's
visited or skipped sets. -/
def availableLandmarks (st : WalkState) (landmarks : List WalkLandmark) :
    List WalkLandmark :=
  landmarks.filter fun l => !(st.visitedIds.contains l.id) && !(st.skippedIds.contains l.id)

/-- The scored candidate list `getNextLandmark` ranks: the available
candidates with distance, interest score and cross-session memory attached
(empty when there is no GPS fix). -/
def candidatePool (env : Env) (st : WalkState) (landmarks : List WalkLandmark) :
    List ScoredLandmark :=
  match st.currentLocation with
  | none => []
  | some loc => (availableLandmarks st landmarks).map (scoreLandmark env loc)

/-- `getNextLandmark`: none without a GPS fix; otherwise filter out
visited/skipped ids, none if nothing remains, else the head of the list
sorted by the engine's comparator. -/
def getNextLandmark (env : Env) (st : WalkState) (landmarks : List WalkLandmark) :
    Option ScoredLandmark :=
  match st.currentLocation with
  | none => none
  | some loc =>
    let available := availableLandmarks st landmarks
    if available.isEmpty then none
    else (List.insertionSort sortLe (available.map (scoreLandmark env loc))).head?

/-- `checkProximity`: no-op when paused or a pending landmark is set; runs
the selection and promotes the top candidate to pending when within the
proximity threshold. The source's guard `if (!nearest || !nearest.distance)`
uses JavaScript truthiness, so a candidate at distance exactly 0 is
rejected; the embedding keeps that comparison literally. -/
def checkProximity (env : Env) (st : WalkState) (landmarks : List WalkLandmark) :
    Option ScoredLandmark × WalkState :=
  if st.isPaused || st.pendingLandmark.isSome then (none, st)
  else
    match getNextLandmark env st landmarks with
    | none => (none, st)
    | some nearest =>
      if nearest.distance = 0 then (none, st)
      else if nearest.distance ≤ PROXIMITY_THRESHOLD then
        (some nearest, { st with pendingLandmark := some nearest })
      else (none, st)

/-- `advanceTour`: increments the tour index only when the visited id equals
`tour.landmarkIds[currentIndex]` (an out-of-range index compares unequal,
as `undefined === string` is false in the source). -/
def advanceTour (st : WalkState) (landmarkId : String) : WalkState :=
  match st.activeTour with
  | none => st
  | some tour =>
    if tour.landmarkIds[st.tourIndex]? = some landmarkId then
      { st with tourIndex := st.tourIndex + 1 }
    else st

/-- `markVisited` on the walk engine: adds to the per-walk visited set (it
does not touch the skipped set) and advances the tour when one is active. -/
def markVisited (st : WalkState) (id : String) : WalkState :=
  let st1 := { st with visitedIds := id :: st.visitedIds }
  match st1.activeTour with
  | none => st1
  | some _ => advanceTour st1 id

/-- `explorePending`: marks the pending landmark visited and clears pending. -/
def explorePending (st : WalkState) : Option ScoredLandmark × WalkState :=
  match st.pendingLandmark with
  | none => (none, st)
  | some pending =>
    (some pending, { markVisited st pending.id with pendingLandmark := none })

/-- `skipPending`: adds the pending id to the skipped set and clears pending. -/
def skipPending (st : WalkState) : WalkState :=
  match st.pendingLandmark with
  | none => st
  | some pending =>
    { st with skippedIds := pending.id :: st.skippedIds, pendingLandmark := none }

/-- `onCityChanged`: stops an active walk, then resets the per-walk sets,
the pending landmark and the tour fields for the new city. It does not
touch `SessionService`. -/
def onCityChanged (st : WalkState) (newCityId : String) : WalkState :=
  let st1 := if st.isActive then stopWalk st else st
  { st1 with
      visitedIds := []
      skippedIds := []
      pendingLandmark := none
      activeTour := none
      tourIndex := 0
      tourPreviewLimitReached := false
      currentCityId := newCityId }

/-- `startTourWalk`: installs the tour (index 0, preview flag cleared,
preview limit from the tour or unlimited), then delegates to `startWalk`. -/
def startTourWalk (env : Env) (st : WalkState) (tour : WalkingTour)
    (isPreviewMode : Bool) : Bool × WalkState :=
  let st1 :=
    { st with
        activeTour := some tour
        tourIndex := 0
        tourPreviewLimitReached := false
        tourPreviewLimit :=
          if isPreviewMode then tour.previewLandmarkCount else tour.landmarkIds.length }
  startWalk env st1

/-- `getNextTourLandmark`: none when the tour is complete; sets the
preview-limit flag and returns none at the preview boundary; otherwise the
candidate whose id is the current tour stop. -/
def getNextTourLandmark (st : WalkState) (landmarks : List WalkLandmark) :
    Option WalkLandmark × WalkState :=
  match st.activeTour with
  | none => (none, st)
  | some tour =>
    if st.tourIndex ≥ tour.landmarkIds.length then (none, st)
    else if st.tourIndex ≥ st.tourPreviewLimit then
      (none, { st with tourPreviewLimitReached := true })
    else
      match tour.landmarkIds[st.tourIndex]? with
      | none => (none, st)
      | some targetId => (landmarks.find? (fun l => l.id == targetId), st)

/-- `endTourMode`: clears all tour fields. -/
def endTourMode (st : WalkState) : WalkState :=
  { st with
      activeTour := none
      tourIndex := 0
      tourPreviewLimit := 0
      tourPreviewLimitReached := false }

/-- `upgradeTourAccess`: lifts the preview limit of an active tour. -/
def upgradeTourAccess (st : WalkState) : WalkState :=
  match st.activeTour with
  | none => st
  | some tour =>
    { st with
        tourPreviewLimit := tour.landmarkIds.length
        tourPreviewLimitReached := false }

/-! ### Event traces over the engine -/

/-- One externally triggered operation on the walk engine. -/
inductive Event where
  | startWalkEv : Event
  | stopWalkEv : Event
  | pauseWalkEv : Event
  | resumeWalkEv : Event
  | posUpdate : GeoLocation → Event
  | posError : Event
  | proximityTick : List WalkLandmark → Event
  | exploreEv : Event
  | skipEv : Event
  | visitEv : String → Event
  | cityChangeEv : String → Event
  | startTourEv : WalkingTour → Bool → Event
  | nextTourEv : List WalkLandmark → Event
  | endTourEv : Event
  | upgradeEv : Event

/-- The state reached by handling one event (return values dropped). -/
def stepEvent (env : Env) (st : WalkState) : Event → WalkState
  | .startWalkEv => (startWalk env st).2
  | .stopWalkEv => stopWalk st
  | .pauseWalkEv => pauseWalk st
  | .resumeWalkEv => resumeWalk st
  | .posUpdate loc => handlePositionUpdate st loc
  | .posError => handlePositionError st
  | .proximityTick landmarks => (checkProximity env st landmarks).2
  | .exploreEv => (explorePending st).2
  | .skipEv => skipPending st
  | .visitEv id => markVisited st id
  | .cityChangeEv newId => onCityChanged st newId
  | .startTourEv tour p => (startTourWalk env st tour p).2
  | .nextTourEv landmarks => (getNextTourLandmark st landmarks).2
  | .endTourEv => endTourMode st
  | .upgradeEv => upgradeTourAccess st

/-- The state reached from `st` by a sequence of events. -/
def runEvents (env : Env) (st : WalkState) (events : List Event) : WalkState :=
  events.foldl (stepEvent env) st

/-! ### The per-day session tracker (`SessionService`) -/

/-- The `SessionService` signal state: the persisted per-day visited and
skipped sets (membership view of the stored arrays). -/
structure SessState where
  visitedIds : List String
  skippedIds : List String
deriving DecidableEq

/-- The empty session (initial state, and the result of `resetSession`). -/
def emptySession : SessState := { visitedIds := [], skippedIds := [] }

/-- `SessionService.markVisited`: adds to `visitedIds`, removes the id from
`skippedIds`, persists. -/
def sessionMarkVisited (s : SessState) (id : String) : SessState :=
  { visitedIds := id :: s.visitedIds
    skippedIds := s.skippedIds.filter (fun x => x ≠ id) }

/-- `SessionService.markSkipped`: adds to `skippedIds`, persists; it does
not remove the id from `visitedIds`. -/
def sessionMarkSkipped (s : SessState) (id : String) : SessState :=
  { s with skippedIds := id :: s.skippedIds }

/-- `SessionService.shouldShow`: the id is in neither set. -/
def sessionShouldShow (s : SessState) (id : String) : Bool :=
  !(s.visitedIds.contains id) && !(s.skippedIds.contains id)

/-! ### Application-level composition for city changes -/

/-- The walk engine state together with the persisted session tracker. -/
structure AppState where
  walk : WalkState
  session : SessState
deriving DecidableEq

/-- City change at the application level: the only reaction in the
repository is the `WalkModeService` effect calling `onCityChanged`; no code
path invokes `SessionService.resetSession` (or otherwise clears it) on a
city change, so the persisted session state passes through unchanged. -/
def appCityChanged (app : AppState) (newCityId : String) : AppState :=
  { app with walk := onCityChanged app.walk newCityId }

/-! ### Concrete fixtures used to instantiate the claims -/

/-- A fixed GPS fix with good accuracy (10 m). -/
def loc0 : GeoLocation := { latitude := 0, longitude := 0, accuracy := 10, timestamp := 0 }

/-- A GPS fix with poor accuracy (60 m > 50 m threshold). -/
def locPoor : GeoLocation := { latitude := 0, longitude := 0, accuracy := 60, timestamp := 1 }

/-- Candidate A: no tags (interest score 0). -/
def lmA : WalkLandmark := { id := "A", name := "A", latitude := 0, longitude := 0, tags := [] }

/-- Candidate B: tagged "history" (interest score 2 for a history-first user). -/
def lmB : WalkLandmark := { id := "B", name := "B", latitude := 0, longitude := 0, tags := ["history"] }

/-- Environment for the spec's interest-override example: A at 50 m, B at
180 m, user's primary interest "history", no cross-session memory. -/
def envAB : Env :=
  { interests := ["history"]
    hasMemory := fun _ => false
    dist := fun _ l => if l.id == "B" then 180 else 50
    locationCapability := true
    watchHandle := 7 }

/-- Same as `envAB` but with B at 250 m (outside the 200 m priority range). -/
def envAB250 : Env := { envAB with dist := fun _ l => if l.id == "B" then 250 else 50 }

/-- Environment in which every candidate is 10 m away. -/
def envNear : Env := { envAB with dist := fun _ _ => 10 }

/-- The engine state with a known current location (otherwise initial). -/
def stLoc : WalkState := { initialWalkState with currentLocation := some loc0 }

/-- A two-stop tour used for the tour-advancement claims. -/
def tour1 : WalkingTour := { id := "t", landmarkIds := ["x", "y"], previewLandmarkCount := 1 }

/-- The located state with `tour1` active. -/
def stTour : WalkState := { stLoc with activeTour := some tour1 }

/-- The located state after a walk that visited "A" and skipped "B". -/
def stUsed : WalkState := { stLoc with visitedIds := ["A"], skippedIds := ["B"] }

/-- An environment without the geolocation capability. -/
def envNoCap : Env := { envAB with locationCapability := false }

/-- Environments placing every candidate at a fixed distance, for the
proximity-threshold boundary. -/
def envZero : Env := { envAB with dist := fun _ _ => 0 }

/-- Every candidate at exactly 30 m. -/
def env30 : Env := { envAB with dist := fun _ _ => 30 }

/-- Every candidate at 30.01 m. -/
def env3001 : Env := { envAB with dist := fun _ _ => 3001 / 100 }

/-- Every candidate at 29.99 m. -/
def env2999 : Env := { envAB with dist := fun _ _ => 2999 / 100 }

/-! ### Helper lemmas for the selection claims -/

/-- `getNextLandmark` is the head of the comparator-sorted candidate pool
(the early return on an empty pool coincides with the head of an empty
sorted list). -/
theorem getNextLandmark_eq_head (env : Env) (st : WalkState)
    (landmarks : List WalkLandmark) :
    getNextLandmark env st landmarks =
      (List.insertionSort sortLe (candidatePool env st landmarks)).head? := by
  unfold getNextLandmark candidatePool
  cases st.currentLocation with
  | none => rfl
  | some loc =>
    by_cases hav : availableLandmarks st landmarks = []
    · simp [hav, List.insertionSort]
    · simp [hav, List.isEmpty_iff]

/-- The head of an insertion-sorted list is a minimum of the original list
under the (total, transitive) comparator order. -/
theorem head_insertionSort_minimum {l : List ScoredLandmark} {r : ScoredLandmark}
    (h : (List.insertionSort sortLe l).head? = some r) :
    r ∈ l ∧ ∀ c ∈ l, sortCompare r c ≤ 0 := by
  cases hs : List.insertionSort sortLe l with
  | nil => rw [hs] at h; exact absurd h (by simp)
  | cons x rest =>
    rw [hs] at h
    have hxr : x = r := by simpa using h
    subst hxr
    have hsorted : List.Sorted sortLe (x :: rest) :=
      hs ▸ List.sorted_insertionSort sortLe l
    constructor
    · have hx : x ∈ List.insertionSort sortLe l := by
        rw [hs]; exact List.mem_cons_self x rest
      exact (List.mem_insertionSort sortLe).mp hx
    · intro c hc
      have hcs : c ∈ List.insertionSort sortLe l :=
        (List.mem_insertionSort sortLe).mpr hc
      rw [hs] at hcs
      rcases List.mem_cons.mp hcs with hcx | hcr
      · rw [hcx, sortCompare_self]
      · exact List.rel_of_sorted_cons hsorted c hcr

/-- A visit whose id is not the expected tour stop changes neither the tour
index nor the active tour. -/
theorem markVisited_no_match {st : WalkState} {tour : WalkingTour} {id : String}
    (ht : st.activeTour = some tour)
    (h : tour.landmarkIds[st.tourIndex]? ≠ some id) :
    (markVisited st id).tourIndex = st.tourIndex ∧
    (markVisited st id).activeTour = some tour := by
  unfold markVisited advanceTour
  simp [ht, h]

/-- Any sequence of visits that never matches the expected tour stop leaves
the tour index unchanged. -/
theorem foldl_markVisited_no_match :
    ∀ (ids : List String) (st : WalkState) (tour : WalkingTour),
      st.activeTour = some tour →
      (∀ i ∈ ids, tour.landmarkIds[st.tourIndex]? ≠ some i) →
      (ids.foldl markVisited st).tourIndex = st.tourIndex
  | [], _, _, _, _ => rfl
  | i :: rest, st, tour, ht, hall => by
    have h1 := markVisited_no_match ht (hall i (List.mem_cons_self i rest))
    have h2 := foldl_markVisited_no_match rest (markVisited st i) tour h1.2 (by
      intro j hj
      rw [h1.1]
      exact hall j (List.mem_cons_of_mem i hj))
    rw [List.foldl_cons, h2, h1.1]

/-! ### The claims -/

/-- Claim C1: whenever `getNextLandmark` returns a candidate (which requires
a known current location), that candidate belongs to the remaining
(non-visited, non-skipped) scored pool and is a minimum of that pool under
the three-tier comparator (unvisited-before-visited, then interest score
when both are within 200 m, then ascending distance; beyond 200 m interest
never overrides distance). In particular, unvisited A at 50 m with score 0
loses to unvisited B at 180 m with score 2, but wins when B is at 250 m. -/
theorem C1_getNextLandmark_minimum :
    (∀ (env : Env) (st : WalkState) (landmarks : List WalkLandmark) (r : ScoredLandmark),
        getNextLandmark env st landmarks = some r →
          r ∈ candidatePool env st landmarks ∧
          ∀ c ∈ candidatePool env st landmarks, sortCompare r c ≤ 0)
    ∧ getNextLandmark envAB stLoc [lmA, lmB] = some (scoreLandmark envAB loc0 lmB)
    ∧ getNextLandmark envAB250 stLoc [lmA, lmB] = some (scoreLandmark envAB250 loc0 lmA) := by
  refine ⟨?_, by decide, by decide⟩
  intro env st landmarks r h
  rw [getNextLandmark_eq_head] at h
  exact head_insertionSort_minimum h

/-- Witness for C1: the minimality consequence instantiated at the spec's
interest-override example. -/
theorem C1_witness :
    scoreLandmark envAB loc0 lmB ∈ candidatePool envAB stLoc [lmA, lmB] ∧
    ∀ c ∈ candidatePool envAB stLoc [lmA, lmB],
      sortCompare (scoreLandmark envAB loc0 lmB) c ≤ 0 :=
  C1_getNextLandmark_minimum.1 envAB stLoc [lmA, lmB] _ (by decide)

/-- Counterexample to claim C2 as stated: start a walk, receive a good fix,
let `checkProximity` set a pending landmark, then pause — the engine is
paused while `pendingLandmark` is still set, violating "non-null only while
`isActive && !isPaused`". -/
theorem C2_counterexample :
    (runEvents envNear initialWalkState
        [.startWalkEv, .posUpdate loc0, .proximityTick [lmA], .pauseWalkEv]).isPaused = true ∧
    (runEvents envNear initialWalkState
        [.startWalkEv, .posUpdate loc0, .proximityTick [lmA], .pauseWalkEv]).pendingLandmark =
      some (scoreLandmark envNear loc0 lmA) := by
  decide

/-- Claim C2 amended: explore, skip, stop and city change always leave the
pending landmark null, and a paused engine never gains one (checkProximity
is a no-op while paused); but the pausing operations themselves — explicit
pause, poor-GPS force-pause, GPS error — leave an already-set pending
landmark in place, so `pendingLandmark` can be non-null while paused. -/
theorem C2_pending_cleared_on_resolution :
    ∀ (st : WalkState) (loc : GeoLocation) (newCityId : String),
      (explorePending st).2.pendingLandmark = none ∧
      (skipPending st).pendingLandmark = none ∧
      (stopWalk st).pendingLandmark = none ∧
      (onCityChanged st newCityId).pendingLandmark = none ∧
      (pauseWalk st).pendingLandmark = st.pendingLandmark ∧
      (handlePositionUpdate st loc).pendingLandmark = st.pendingLandmark ∧
      (handlePositionError st).pendingLandmark = st.pendingLandmark ∧
      (st.isPaused = true →
        ∀ (landmarks : List WalkLandmark) (env : Env),
          (checkProximity env st landmarks).2 = st) := by
  intro st loc newCityId
  refine ⟨?_, ?_, rfl, rfl, rfl, ?_, rfl, ?_⟩
  · cases h : st.pendingLandmark <;> simp [explorePending, h]
  · cases h : st.pendingLandmark <;> simp [skipPending, h]
  · unfold handlePositionUpdate
    split_ifs <;> rfl
  · intro h landmarks env
    simp [checkProximity, h]

/-- Witness for the amended C2 at concrete inputs. -/
theorem C2_witness :
    (explorePending stLoc).2.pendingLandmark = none ∧
    (pauseWalk stLoc).isPaused = true ∧
    (checkProximity envNear (pauseWalk stLoc) [lmA]).2 = pauseWalk stLoc :=
  ⟨(C2_pending_cleared_on_resolution stLoc loc0 "paris").1, rfl,
   (C2_pending_cleared_on_resolution (pauseWalk stLoc) loc0 "paris").2.2.2.2.2.2.2
     rfl [lmA] envNear⟩

/-- Counterexample to claim C3 as stated: an explicitly requested pause
(`pauseWalk`, e.g. app backgrounded) does not survive a good-accuracy
update — the engine auto-resumes anyway. -/
theorem C3_counterexample :
    (runEvents envNear initialWalkState
        [.startWalkEv, .pauseWalkEv, .posUpdate loc0]).isPaused = false := by
  decide

/-- Claim C3 amended: accuracy above 50 m force-pauses (poor flag and
paused flag set) regardless of any explicit pause; accuracy at or below
50 m clears the poor flag and unpauses unconditionally — explicit and
GPS-quality pauses share one boolean, so an explicit pause is also lifted. -/
theorem C3_accuracy_gating :
    ∀ (st : WalkState) (loc : GeoLocation),
      (loc.accuracy > POOR_ACCURACY_THRESHOLD →
        (handlePositionUpdate st loc).gpsAccuracyPoor = true ∧
        (handlePositionUpdate st loc).isPaused = true) ∧
      (loc.accuracy ≤ POOR_ACCURACY_THRESHOLD →
        (handlePositionUpdate st loc).gpsAccuracyPoor = false ∧
        (handlePositionUpdate st loc).isPaused = false) := by
  intro st loc
  constructor
  · intro h
    simp [handlePositionUpdate, h]
  · intro h
    simp [handlePositionUpdate, not_lt.mpr h]

/-- Witness for the amended C3: a 60 m-accuracy fix force-pauses; a
10 m-accuracy fix unpauses even an explicitly paused engine. -/
theorem C3_witness :
    locPoor.accuracy > POOR_ACCURACY_THRESHOLD ∧
    (handlePositionUpdate stLoc locPoor).gpsAccuracyPoor = true ∧
    (handlePositionUpdate stLoc locPoor).isPaused = true ∧
    loc0.accuracy ≤ POOR_ACCURACY_THRESHOLD ∧
    (handlePositionUpdate (pauseWalk stLoc) loc0).isPaused = false :=
  ⟨by decide,
   ((C3_accuracy_gating stLoc locPoor).1 (by decide)).1,
   ((C3_accuracy_gating stLoc locPoor).1 (by decide)).2,
   by decide,
   ((C3_accuracy_gating (pauseWalk stLoc) loc0).2 (by decide)).2⟩

/-- Counterexample to claim C4 as stated: `markVisited "a"` followed by
`markSkipped "a"` leaves "a" in both sets, because `markSkipped` never
removes from `visitedIds` — the at-most-one-set invariant fails. -/
theorem C4_counterexample :
    "a" ∈ (sessionMarkSkipped (sessionMarkVisited emptySession "a") "a").visitedIds ∧
    "a" ∈ (sessionMarkSkipped (sessionMarkVisited emptySession "a") "a").skippedIds := by
  decide

/-- Claim C4 amended: after `markVisited(id)` the id is in `visitedIds` and
not in `skippedIds` (the skip is cleared); but `markSkipped` leaves
`visitedIds` untouched while adding to `skippedIds`, so a subsequent
`markSkipped(id)` puts the id in both sets — the at-most-one-set invariant
holds only in the visited-after-skipped direction. The walk engine's own
`markVisited` likewise only adds to its visited set. -/
theorem C4_mark_semantics :
    ∀ (s : SessState) (id : String),
      id ∈ (sessionMarkVisited s id).visitedIds ∧
      id ∉ (sessionMarkVisited s id).skippedIds ∧
      (sessionMarkSkipped s id).visitedIds = s.visitedIds ∧
      id ∈ (sessionMarkSkipped s id).skippedIds ∧
      ∀ st : WalkState,
        id ∈ (markVisited st id).visitedIds ∧
        (markVisited st id).skippedIds = st.skippedIds := by
  intro s id
  refine ⟨List.mem_cons_self _ _, ?_, rfl, List.mem_cons_self _ _, ?_⟩
  · simp [sessionMarkVisited]
  · intro st
    unfold markVisited advanceTour
    cases h : st.activeTour
    · simp [h]
    · simp only [h]
      split_ifs <;> simp

/-- Counterexample to claim C5 as stated: a city change leaves the
persisted day-session (`SessionService`) untouched — here `visitedIds`
still holds "a" afterwards instead of being empty. -/
theorem C5_counterexample :
    (appCityChanged
        { walk := stLoc, session := { visitedIds := ["a"], skippedIds := [] } }
        "paris").session.visitedIds = ["a"] ∧
    (appCityChanged
        { walk := stLoc, session := { visitedIds := ["a"], skippedIds := [] } }
        "paris").session.visitedIds ≠ [] := by
  decide

/-- Claim C5 amended: a city change empties the walk engine's in-memory
visited/skipped sets, clears the pending landmark, and destroys the tour
state (no active tour, index 0, preview-limit flag cleared); the persisted
day-scoped `SessionService` state is not cleared. -/
theorem C5_city_change_reset :
    ∀ (app : AppState) (newCityId : String),
      (appCityChanged app newCityId).walk.visitedIds = [] ∧
      (appCityChanged app newCityId).walk.skippedIds = [] ∧
      (appCityChanged app newCityId).walk.pendingLandmark = none ∧
      (appCityChanged app newCityId).walk.activeTour = none ∧
      (appCityChanged app newCityId).walk.tourIndex = 0 ∧
      (appCityChanged app newCityId).walk.tourPreviewLimitReached = false ∧
      (appCityChanged app newCityId).session = app.session :=
  fun _ _ => ⟨rfl, rfl, rfl, rfl, rfl, rfl, rfl⟩

/-- Claim C6: with an active tour, a visit advances the tour index by
exactly 1 when its id equals `landmarkIds[currentIndex]`, leaves the index
unchanged otherwise, and any sequence of non-matching visits leaves it
unchanged. -/
theorem C6_tour_advance :
    ∀ (st : WalkState) (tour : WalkingTour) (id : String),
      st.activeTour = some tour →
        (tour.landmarkIds[st.tourIndex]? = some id →
          (markVisited st id).tourIndex = st.tourIndex + 1) ∧
        (tour.landmarkIds[st.tourIndex]? ≠ some id →
          (markVisited st id).tourIndex = st.tourIndex) ∧
        (∀ ids : List String,
          (∀ i ∈ ids, tour.landmarkIds[st.tourIndex]? ≠ some i) →
          (ids.foldl markVisited st).tourIndex = st.tourIndex) := by
  intro st tour id ht
  refine ⟨?_, ?_, ?_⟩
  · intro h
    unfold markVisited advanceTour
    simp [ht, h]
  · intro h
    exact (markVisited_no_match ht h).1
  · intro ids hall
    exact foldl_markVisited_no_match ids st tour ht hall

/-- Witness for C6 on a concrete two-stop tour: visiting the expected stop
"x" advances the index, visiting off-sequence "z" does not, nor does a
sequence of off-sequence visits. -/
theorem C6_witness :
    stTour.activeTour = some tour1 ∧
    (markVisited stTour "x").tourIndex = stTour.tourIndex + 1 ∧
    (markVisited stTour "z").tourIndex = stTour.tourIndex ∧
    (["z", "y", "w"].foldl markVisited stTour).tourIndex = stTour.tourIndex :=
  ⟨rfl,
   (C6_tour_advance stTour tour1 "x" rfl).1 (by decide),
   (C6_tour_advance stTour tour1 "z" rfl).2.1 (by decide),
   (C6_tour_advance stTour tour1 "z" rfl).2.2 ["z", "y", "w"] (by decide)⟩

/-- Claim C7, evaluated at the boundary and at the failing input: a top
candidate at 30 m triggers the pending state, at 30.01 m it does not, at
29.99 m it does; but at distance exactly 0 — which the claim says must
trigger, and the spec's `<= 30` contract includes — the source's falsy
guard `!nearest.distance` makes `checkProximity` return none and leave
`pendingLandmark` unset. -/
theorem C7_threshold_evaluation :
    (checkProximity env30 stLoc [lmA]).1 = some (scoreLandmark env30 loc0 lmA) ∧
    (checkProximity env30 stLoc [lmA]).2.pendingLandmark = some (scoreLandmark env30 loc0 lmA) ∧
    (checkProximity env3001 stLoc [lmA]).1 = none ∧
    (checkProximity env3001 stLoc [lmA]).2 = stLoc ∧
    (checkProximity env2999 stLoc [lmA]).1 = some (scoreLandmark env2999 loc0 lmA) ∧
    (scoreLandmark envZero loc0 lmA).distance = 0 ∧
    (checkProximity envZero stLoc [lmA]).1 = none ∧
    (checkProximity envZero stLoc [lmA]).2 = stLoc := by
  decide

/-- Claim C8: without the location-watch capability `startWalk` returns
false and leaves every field of the engine state (including the watch
handle) unchanged; with the capability it returns true. -/
theorem C8_startWalk_capability :
    ∀ (env : Env) (st : WalkState),
      (env.locationCapability = false → startWalk env st = (false, st)) ∧
      (env.locationCapability = true → (startWalk env st).1 = true) := by
  intro env st
  constructor
  · intro h
    simp [startWalk, h]
  · intro h
    simp [startWalk, h]

/-- Witness for C8: a concrete capability-less environment and a concrete
capable one. -/
theorem C8_witness :
    envNoCap.locationCapability = false ∧
    startWalk envNoCap stLoc = (false, stLoc) ∧
    envAB.locationCapability = true ∧
    (startWalk envAB stLoc).1 = true :=
  ⟨rfl, (C8_startWalk_capability envNoCap stLoc).1 rfl, rfl,
   (C8_startWalk_capability envAB stLoc).2 rfl⟩

/-- Claim C9: every successful `startWalk` — including the one performed by
`startTourWalk` — resets the per-walk visited and skipped sets to empty and
clears the pending landmark, so the selection filter afterwards excludes
nothing: every candidate is offered again. -/
theorem C9_startWalk_resets :
    ∀ (env : Env) (st : WalkState) (tour : WalkingTour) (p : Bool),
      env.locationCapability = true →
        (startWalk env st).2.visitedIds = [] ∧
        (startWalk env st).2.skippedIds = [] ∧
        (startWalk env st).2.pendingLandmark = none ∧
        (startTourWalk env st tour p).2.visitedIds = [] ∧
        (startTourWalk env st tour p).2.skippedIds = [] ∧
        (startTourWalk env st tour p).2.pendingLandmark = none ∧
        ∀ landmarks : List WalkLandmark,
          availableLandmarks (startWalk env st).2 landmarks = landmarks := by
  intro env st tour p h
  refine ⟨?_, ?_, ?_, ?_, ?_, ?_, ?_⟩ <;>
    simp [startWalk, startTourWalk, availableLandmarks, h, List.filter_eq_self]

/-- Witness for C9: restarting after a walk that visited "A" and skipped
"B" clears both records and offers both again. -/
theorem C9_witness :
    envAB.locationCapability = true ∧
    (startWalk envAB stUsed).2.visitedIds = [] ∧
    (startWalk envAB stUsed).2.skippedIds = [] ∧
    (startWalk envAB stUsed).2.pendingLandmark = none ∧
    availableLandmarks (startWalk envAB stUsed).2 [lmA, lmB] = [lmA, lmB] :=
  ⟨rfl,
   (C9_startWalk_resets envAB stUsed tour1 false rfl).1,
   (C9_startWalk_resets envAB stUsed tour1 false rfl).2.1,
   (C9_startWalk_resets envAB stUsed tour1 false rfl).2.2.1,
   (C9_startWalk_resets envAB stUsed tour1 false rfl).2.2.2.2.2.2 [lmA, lmB]⟩

/-- Claim C10: with no GPS fix recorded, `getNextLandmark` returns none for
every candidate list (no candidate is scored or ranked). -/
theorem C10_no_fix_no_selection :
    ∀ (env : Env) (st : WalkState) (landmarks : List WalkLandmark),
      st.currentLocation = none → getNextLandmark env st landmarks = none := by
  intro env st landmarks h
  simp [getNextLandmark, h]

/-- Witness for C10: the initial state has no fix, and a non-empty
candidate list yields none. -/
theorem C10_witness :
    initialWalkState.currentLocation = none ∧
    getNextLandmark envAB initialWalkState [lmA, lmB] = none :=
  ⟨rfl, C10_no_fix_no_selection envAB initialWalkState [lmA, lmB] rfl⟩

end ARCity
